import Mathlib

/-!
Verification of the resilient batch-synchronization core of the
QBO-Invoice-Creation repository (qbo_invoice_import.py, qbo_invoice_download.py,
qb_auth.py) against its natural-language specification.

The Python source is shallowly embedded: pure helpers become Lean functions,
the filesystem becomes an explicit list of existing paths, remote responses
become environment records supplied as inputs, and the batch coordinator
becomes a fold over records carrying explicit state plus an event trace.
-/

/- ===========================================================================
   Section 1 — OutputPathAllocator: `get_unique_filename`
   (src/qbo_invoice_download.py, lines 147-160)

   The Python code:
     if not os.path.exists(file_path): return file_path
     base, ext = os.path.splitext(file_path)
     counter = 1
     while True:
         new_path = f"{base}({counter}){ext}"
         if not os.path.exists(new_path): return new_path
         counter += 1

   The filesystem is embedded as the list `fs` of currently existing paths.
   The unbounded `while` loop is embedded with fuel `fs.length + 1`, which is
   proved sufficient below (pigeonhole over the distinct probed names).
   =========================================================================== -/

/-- Decimal rendering of a natural number digit list, fuel-based so that it
reduces definitionally.  `natStrAux f n` for `n ≤ f` is the list of decimal
digit characters of `n` (empty for `n = 0`). -/
def natStrAux : Nat → Nat → List Char
  | _, 0 => []
  | 0, _ + 1 => []
  | f + 1, n + 1 => natStrAux f ((n + 1) / 10) ++ [Nat.digitChar ((n + 1) % 10)]

/-- Decimal rendering of a natural number, as Python's string formatting of an
`int` produces it (`f"{counter}"`). -/
def natRepr (n : Nat) : String :=
  if n = 0 then "0" else String.mk (natStrAux n n)

/-- Index of the last occurrence of a character in a character list
(embedding of Python's `str.rfind`, with `none` for "not found"). -/
def lastIdx (ch : Char) : List Char → Option Nat
  | [] => none
  | c :: cs =>
    match lastIdx ch cs with
    | some i => some (i + 1)
    | none => if c = ch then some 0 else none

/-- Embedding of `os.path.splitext` (posixpath.splitext): split at the last
dot, provided the dot comes after the last path separator and the basename is
not made only of leading dots. -/
def splitext (p : String) : String × String :=
  let cs := p.data
  let sepIdx : Int :=
    match lastIdx '/' cs with
    | some i => (i : Int)
    | none => -1
  match lastIdx '.' cs with
  | none => (p, "")
  | some d =>
    if decide (sepIdx < (d : Int)) &&
        (List.range cs.length).any (fun fi =>
          decide (sepIdx < (fi : Int)) && decide (fi < d) &&
          decide (cs.getD fi '.' ≠ '.')) then
      (String.mk (cs.take d), String.mk (cs.drop d))
    else (p, "")

/-- The probed destination name `f"{base}({counter}){ext}"`. -/
def pyCounterName (base ext : String) (c : Nat) : String :=
  base ++ "(" ++ natRepr c ++ ")" ++ ext

/-- Fuel-based embedding of the allocator's `while True` probe loop: return
the first counter `≥ c` whose probed name does not exist. -/
def findFree (fs : List String) (base ext : String) : Nat → Nat → Nat
  | 0, c => c
  | fuel + 1, c =>
    if pyCounterName base ext c ∈ fs then findFree fs base ext fuel (c + 1) else c

/-- Embedding of `get_unique_filename` from src/qbo_invoice_download.py;
`fs` is the set of paths that currently exist. -/
def get_unique_filename (fs : List String) (file_path : String) : String :=
  if file_path ∈ fs then
    let be := splitext file_path
    pyCounterName be.1 be.2 (findFree fs be.1 be.2 (fs.length + 1) 1)
  else file_path

/- ===========================================================================
   Section 2 — RecordResolver and invoice creation
   (src/qbo_invoice_import.py, lines 84-86, 199-334)

   Remote responses are supplied by a `CreateEnv` record: each `*.filter`
   query answers found / notFound, raises the 401 AuthorizationException
   (`authErr`), or raises some other exception (`otherErr`); `invoice.save`
   can succeed or raise either kind.  Every embedded routine returns its
   result together with the list of remote calls it issued, so that theorems
   can speak about which remote operations were invoked and in which order.
   =========================================================================== -/

/-- Result of a python-quickbooks `.filter` query as observed by the script. -/
inductive LookupRes
  | found
  | notFound
  | authErr
  | otherErr
deriving DecidableEq

/-- Result of `invoice.save(qb=client)`. -/
inductive SaveRes
  | okSave
  | saveAuthErr
  | saveOtherErr
deriving DecidableEq

/-- A Python exception escaping a routine: the 401 AuthorizationException or
any other exception. -/
inductive PyExc
  | authExc
  | otherExc
deriving DecidableEq

/-- Remote-service responses for one creation attempt. -/
structure CreateEnv where
  invoiceFilter : String → LookupRes
  customerFilter : String → LookupRes
  itemFilter : String → LookupRes
  termFilter : String → LookupRes
  saveResult : SaveRes

/-- One CSV line entry after parsing (`read_invoices` row). -/
structure LineRow where
  Item : String
  Description : String
  Quantity : Option Rat
  Rate : Option Rat
  Amount : Rat
deriving DecidableEq

/-- One invoice's parsed data (the per-InvoiceNo dict of `read_invoices`). -/
structure InvoiceData where
  Customer : String
  InvoiceDate : String
  DueDate : String
  CustomerMemo : String
  Terms : String
  LineItems : List LineRow
deriving DecidableEq

/-- The SDK's SalesItemLineDetail object.  The SDK constructor inserts default
values (zero amounts and a default ServiceDate such as 12/31/9999), which is
exactly what `_apply_qty_rate` exists to strip. -/
structure SalesItemLineDetail where
  ItemRef : Option String := none
  Qty : Option Rat := some 0
  UnitPrice : Option Rat := some 0
  TaxInclusiveAmt : Option Rat := some 0
  ServiceDate : Option String := some "9999-12-31"
deriving DecidableEq

/-- The SDK's SalesItemLine object. -/
structure SalesItemLine where
  DetailType : Option String := none
  Description : Option String := none
  Amount : Rat := 0
  LineDetail : Option SalesItemLineDetail := none
deriving DecidableEq

/-- The invoice payload handed to `invoice.save` (the wire object). -/
structure InvoiceObj where
  CustomerRef : String
  TxnDate : String
  DocNumber : String
  DueDate : Option String := none
  CustomerMemo : Option String := none
  SalesTermRef : Option String := none
  Line : List SalesItemLine := []
deriving DecidableEq

/-- A remote call issued by the script, in order. -/
inductive QboCall
  | invQuery (doc : String)
  | custQuery (name : String)
  | itemQuery (name : String)
  | termQuery (name : String)
  | saveCall (inv : InvoiceObj)
deriving DecidableEq

/-- Embedding of Python's `str.strip()`: drop leading and trailing
whitespace. -/
def pyStrip (s : String) : String :=
  String.mk (((s.data.dropWhile Char.isWhitespace).reverse.dropWhile
    Char.isWhitespace).reverse)

/-- Embedding of `to_float_or_none` (line 84-86): strip, then None for a blank
cell, otherwise the parsed float.  Parsing a non-blank numeral is Python's
`float`, supplied as the parameter `float`. -/
def to_float_or_none (float : String → Rat) (val : String) : Option Rat :=
  let v := pyStrip val
  if v = "" then none else some (float v)

/-- Embedding of `_apply_qty_rate` (lines 243-252): reset Qty, UnitPrice,
TaxInclusiveAmt and ServiceDate to None, then set Qty/UnitPrice only when the
parsed CSV value is present. -/
def _apply_qty_rate (detail : SalesItemLineDetail) (qty rate : Option Rat) :
    SalesItemLineDetail :=
  let d1 := { detail with
    Qty := none, UnitPrice := none, TaxInclusiveAmt := none, ServiceDate := none }
  let d2 :=
    match qty with
    | some q => { d1 with Qty := some q }
    | none => d1
  match rate with
  | some r => { d2 with UnitPrice := some r }
  | none => d2

/-- Embedding of `invoice_number_exists` (lines 256-264): a non-auth exception
from the lookup is caught and reported as `False`; only the 401
AuthorizationException re-raises. -/
def invoice_number_exists (env : CreateEnv) (doc_number : String) :
    Except PyExc Bool × List QboCall :=
  match env.invoiceFilter doc_number with
  | .found => (.ok true, [.invQuery doc_number])
  | .notFound => (.ok false, [.invQuery doc_number])
  | .authErr => (.error .authExc, [.invQuery doc_number])
  | .otherErr => (.ok false, [.invQuery doc_number])

/-- Embedding of `find_or_create_customer` (lines 199-211): find-only, `none`
when absent or on a non-auth error, re-raise on 401. -/
def find_or_create_customer (env : CreateEnv) (name : String) :
    Except PyExc (Option String) × List QboCall :=
  match env.customerFilter name with
  | .found => (.ok (some name), [.custQuery name])
  | .notFound => (.ok none, [.custQuery name])
  | .authErr => (.error .authExc, [.custQuery name])
  | .otherErr => (.ok none, [.custQuery name])

/-- Embedding of `find_or_create_item` (lines 212-224), same shape. -/
def find_or_create_item (env : CreateEnv) (name : String) :
    Except PyExc (Option String) × List QboCall :=
  match env.itemFilter name with
  | .found => (.ok (some name), [.itemQuery name])
  | .notFound => (.ok none, [.itemQuery name])
  | .authErr => (.error .authExc, [.itemQuery name])
  | .otherErr => (.ok none, [.itemQuery name])

/-- Embedding of `find_sales_term_by_name` (lines 225-239), same shape. -/
def find_sales_term_by_name (env : CreateEnv) (name : String) :
    Except PyExc (Option String) × List QboCall :=
  match env.termFilter name with
  | .found => (.ok (some name), [.termQuery name])
  | .notFound => (.ok none, [.termQuery name])
  | .authErr => (.error .authExc, [.termQuery name])
  | .otherErr => (.ok none, [.termQuery name])

/-- Python's `round(x, 4)` on the auto-fill path (the embedding rounds half
away from the nearest even differently than CPython on exact ties; the
verified claims only exercise the path with auto-fill disabled). -/
def round4 (x : Rat) : Rat :=
  ((round (x * 10000) : ℤ) : Rat) / 10000

/-- Result of building one invoice line from a CSV row. -/
inductive LineRes
  | skip
  | missingItem
  | authEx
  | built (l : SalesItemLine)
deriving DecidableEq

/-- Embedding of the per-row body of the line loop in
`create_quickbooks_invoice` (lines 288-324). -/
def buildLine (env : CreateEnv) (only_required auto_fill_qty_rate : Bool)
    (row : LineRow) : LineRes × List QboCall :=
  if row.Item ≠ "" then
    match find_or_create_item env row.Item with
    | (.error _, calls) => (.authEx, calls)
    | (.ok none, calls) => (.missingItem, calls)
    | (.ok (some item), calls) =>
      let qr : Option Rat × Option Rat :=
        if auto_fill_qty_rate then
          match row.Quantity, row.Rate with
          | none, none => (some 1, some row.Amount)
          | none, some r => (some (if r = 0 then 1 else round4 (row.Amount / r)), some r)
          | some q, none => (some q, some (if q = 0 then 0 else round4 (row.Amount / q)))
          | some q, some r => (some q, some r)
        else (row.Quantity, row.Rate)
      let detail0 : SalesItemLineDetail := {}
      let detail := _apply_qty_rate { detail0 with ItemRef := some item } qr.1 qr.2
      let line : SalesItemLine :=
        { DetailType := none
          Description :=
            if only_required = false ∧ row.Description ≠ "" then some row.Description else none
          Amount := row.Amount
          LineDetail := some detail }
      (.built line, calls)
  else
    if row.Description = "" then (.skip, [])
    else
      (.built
        { DetailType := some "DescriptionOnly"
          Description := some row.Description
          Amount := row.Amount
          LineDetail := none }, [])

/-- Result of the whole line loop. -/
inductive LinesRes
  | authEx
  | abortInvoice
  | lines (ls : List SalesItemLine)
deriving DecidableEq

/-- Embedding of the line loop: a missing item aborts the invoice, a 401
re-raises, description-only rows without a description are skipped. -/
def buildLines (env : CreateEnv) (only_required auto_fill_qty_rate : Bool) :
    List LineRow → LinesRes × List QboCall
  | [] => (.lines [], [])
  | row :: rest =>
    match buildLine env only_required auto_fill_qty_rate row with
    | (.authEx, calls) => (.authEx, calls)
    | (.missingItem, calls) => (.abortInvoice, calls)
    | (.skip, calls) =>
      let r := buildLines env only_required auto_fill_qty_rate rest
      (r.1, calls ++ r.2)
    | (.built l, calls) =>
      match buildLines env only_required auto_fill_qty_rate rest with
      | (.lines ls, calls2) => (.lines (l :: ls), calls ++ calls2)
      | (.authEx, calls2) => (.authEx, calls ++ calls2)
      | (.abortInvoice, calls2) => (.abortInvoice, calls ++ calls2)

/-- Body of `create_quickbooks_invoice` after the idempotency guard
(lines 273-334): customer lookup, optional terms lookup, line building, and
the final `invoice.save`.  The `debug_json` flag only prints and is omitted. -/
def create_after_guard (env : CreateEnv) (data : InvoiceData) (inv_no : String)
    (only_required auto_fill_qty_rate : Bool) : Except PyExc Bool × List QboCall :=
  match find_or_create_customer env data.Customer with
  | (.error e, calls1) => (.error e, calls1)
  | (.ok none, calls1) => (.ok false, calls1)
  | (.ok (some customer), calls1) =>
    let termRes : Except PyExc (Option String) × List QboCall :=
      if only_required = false ∧ data.Terms ≠ "" then find_sales_term_by_name env data.Terms
      else (.ok none, [])
    match termRes with
    | (.error e, calls2) => (.error e, calls1 ++ calls2)
    | (.ok termRef, calls2) =>
      match buildLines env only_required auto_fill_qty_rate data.LineItems with
      | (.authEx, calls3) => (.error .authExc, calls1 ++ calls2 ++ calls3)
      | (.abortInvoice, calls3) => (.ok false, calls1 ++ calls2 ++ calls3)
      | (.lines ls, calls3) =>
        if ls = [] then (.ok false, calls1 ++ calls2 ++ calls3)
        else
          let inv : InvoiceObj :=
            { CustomerRef := customer
              TxnDate := data.InvoiceDate
              DocNumber := inv_no
              DueDate := if only_required = false then some data.DueDate else none
              CustomerMemo :=
                if only_required = false ∧ data.CustomerMemo ≠ "" then some data.CustomerMemo
                else none
              SalesTermRef := termRef
              Line := ls }
          let calls := calls1 ++ calls2 ++ calls3 ++ [.saveCall inv]
          match env.saveResult with
          | .okSave => (.ok true, calls)
          | .saveAuthErr => (.error .authExc, calls)
          | .saveOtherErr => (.error .otherExc, calls)

/-- Embedding of `create_quickbooks_invoice` (lines 265-334): the idempotency
guard runs first; if the DocNumber already exists the routine returns False
without touching the remote side. -/
def create_quickbooks_invoice (env : CreateEnv) (data : InvoiceData) (inv_no : String)
    (only_required auto_fill_qty_rate : Bool) : Except PyExc Bool × List QboCall :=
  match invoice_number_exists env inv_no with
  | (.error e, calls0) => (.error e, calls0)
  | (.ok true, calls0) => (.ok false, calls0)
  | (.ok false, calls0) =>
    let r := create_after_guard env data inv_no only_required auto_fill_qty_rate
    (r.1, calls0 ++ r.2)

/- ===========================================================================
   Section 3 — AuthRefresher, CredentialStore and the BatchCoordinator
   (src/qb_auth.py lines 18-56; src/qbo_invoice_import.py lines 338-424)

   The coordinator loop of `process_invoices` is embedded as a fold over
   record indices.  Remote outcomes (per-record first attempt and retry,
   refresh-grant results, fresh token pairs, client re-initialization
   results) are supplied by a `BatchEnv` record.  The state carries the
   current client, the CONFIG token fields, the contents of qb_tokens.json,
   the success counter, the number of refresh attempts made, the abort flag,
   and a chronological event trace.
   =========================================================================== -/

/-- The credential record persisted in qb_tokens.json and mirrored in
CONFIG's ACCESS_TOKEN / REFRESH_TOKEN / REALM_ID fields. -/
structure Cred where
  access_token : String
  refresh_token : String
  realm_id : String
deriving DecidableEq

/-- The QuickBooks client object; what matters to the coordinator is which
credential it was built from. -/
structure QbClient where
  cred : Cred
deriving DecidableEq

/-- Outcome of one invocation of `create_quickbooks_invoice` as seen by the
coordinator's try/except: a normal return (created or not), the 401
AuthorizationException, or any other exception. -/
inductive Outcome
  | ok (created : Bool)
  | authRaised
  | otherRaised
deriving DecidableEq

/-- Chronological events of a batch run. -/
inductive Event
  | attempt (i : Nat) (c : Cred)
  | refreshAttempt (i : Nat) (ok : Bool)
  | tokenSave (c : Cred)
  | tokenReload (c : Cred)
  | clientRebuild (c : Cred)
  | retry (i : Nat) (c : Cred)
  | abortBatch
deriving DecidableEq

/-- Environment of a batch run: the remote responses, indexed by record
number and by refresh-attempt number. -/
structure BatchEnv where
  firstOutcome : Nat → Outcome
  retryOutcome : Nat → Outcome
  refreshGrantOk : Nat → Bool
  freshTokens : Nat → String × String
  reinitOk : Nat → Bool

/-- Coordinator state during `process_invoices`. -/
structure BState where
  client : QbClient
  config : Cred
  tokenFile : Cred
  success : Nat
  refreshCount : Nat
  aborted : Bool
  events : List Event
deriving DecidableEq

/-- The credential produced by the k-th refresh grant: new token pair, realm
carried over from CONFIG (qb_auth.py lines 39-43). -/
def freshCredAt (env : BatchEnv) (k : Nat) (realm : String) : Cred :=
  { access_token := (env.freshTokens k).1
    refresh_token := (env.freshTokens k).2
    realm_id := realm }

/-- One iteration of the `process_invoices` loop body (lines 346-391):
first attempt; on a 401, `refresh_access_token` (which syncs CONFIG and
writes qb_tokens.json), then `load_tokens` (re-reads CONFIG from the token
file), then `initialize_quickbooks_client` (rebuilds the client from
CONFIG), then exactly one retry; a refresh failure, a failed rebuild or a
second 401 breaks out of the loop. -/
def processRecord (env : BatchEnv) (i : Nat) (st : BState) : BState :=
  let st1 := { st with events := st.events ++ [Event.attempt i st.client.cred] }
  match env.firstOutcome i with
  | .ok b => { st1 with success := st1.success + if b then 1 else 0 }
  | .otherRaised => st1
  | .authRaised =>
    let k := st1.refreshCount
    if env.refreshGrantOk k then
      let nc := freshCredAt env k st1.config.realm_id
      let st2 := { st1 with
        config := nc
        tokenFile := nc
        refreshCount := k + 1
        events := st1.events ++ [Event.refreshAttempt i true, Event.tokenSave nc] }
      let st3 := { st2 with
        config := st2.tokenFile
        events := st2.events ++ [Event.tokenReload st2.tokenFile] }
      if env.reinitOk k then
        let cl : QbClient := { cred := st3.config }
        let st4 := { st3 with
          client := cl
          events := st3.events ++ [Event.clientRebuild cl.cred, Event.retry i cl.cred] }
        match env.retryOutcome i with
        | .ok b => { st4 with success := st4.success + if b then 1 else 0 }
        | .otherRaised => st4
        | .authRaised => { st4 with aborted := true, events := st4.events ++ [Event.abortBatch] }
      else { st3 with aborted := true, events := st3.events ++ [Event.abortBatch] }
    else
      { st1 with
        refreshCount := k + 1
        aborted := true
        events := st1.events ++ [Event.refreshAttempt i false, Event.abortBatch] }

/-- The `for inv_no, data in invoices_data.items()` loop with its `break`
statements: once the abort flag is set, no further record is processed. -/
def processLoop (env : BatchEnv) : Nat → Nat → BState → BState
  | 0, _, st => st
  | n + 1, i, st =>
    if st.aborted then st else processLoop env n (i + 1) (processRecord env i st)

/-- State at entry of `process_invoices`: client, CONFIG and qb_tokens.json
all hold the credential loaded at startup. -/
def initialState (c0 : Cred) : BState :=
  { client := { cred := c0 }
    config := c0
    tokenFile := c0
    success := 0
    refreshCount := 0
    aborted := false
    events := [] }

/-- Embedding of `process_invoices` (lines 338-393) over `total` records.
The summary line is printed unconditionally at the end of the function. -/
def process_invoices (env : BatchEnv) (total : Nat) (c0 : Cred) : BState :=
  processLoop env total 0 (initialState c0)

/-- Start-up conditions of `main` (lines 397-422). -/
structure StartEnv where
  env_ok : Bool
  token_file : Option Cred
  csv_ok : Bool
  client_ok : Bool

/-- Outcome of a whole process run: the exit status, whether the
attempted/succeeded summary was printed, and the final batch state when the
batch ran. -/
structure RunResult where
  exitCode : Nat
  summaryShown : Bool
  batch : Option BState
deriving DecidableEq

/-- Embedding of `main` (lines 397-424): `sys.exit(1)` on missing environment
variables, missing token file, missing invoices.csv or failed client
initialization; otherwise run the batch (which always prints its summary)
and fall off the end of the script, exiting 0. -/
def main_import (se : StartEnv) (env : BatchEnv) (total : Nat) : RunResult :=
  if se.env_ok = false then { exitCode := 1, summaryShown := false, batch := none }
  else
    match se.token_file with
    | none => { exitCode := 1, summaryShown := false, batch := none }
    | some c0 =>
      if se.csv_ok = false then { exitCode := 1, summaryShown := false, batch := none }
      else if se.client_ok = false then { exitCode := 1, summaryShown := false, batch := none }
      else
        { exitCode := 0
          summaryShown := true
          batch := some (process_invoices env total c0) }

/-- Observable contents of qb_tokens.json over the course of the save in
`refresh_access_token` (qb_auth.py lines 44-45): `open(token_path, "w")`
truncates the existing file in place, then `json.dump` writes the new
contents, so the sequence of observable states is old, empty, new. -/
def tokenFileWriteStates (oldC newC : String) : List String :=
  [oldC, "", newC]

/-- Event classifiers used to count refreshes, retries and attempts per
record. -/
def isRefreshOf (j : Nat) : Event → Bool
  | .refreshAttempt k _ => decide (k = j)
  | _ => false

/-- Classifier for retry events of record `j`. -/
def isRetryOf (j : Nat) : Event → Bool
  | .retry k _ => decide (k = j)
  | _ => false

/-- Classifier for attempt events of record `j`. -/
def isAttemptOf (j : Nat) : Event → Bool
  | .attempt k _ => decide (k = j)
  | _ => false

/-- Classifier for refresh attempts of any record. -/
def isAnyRefresh : Event → Bool
  | .refreshAttempt _ _ => true
  | _ => false

/-- Concrete credential used by witnesses. -/
def credW : Cred := { access_token := "a1", refresh_token := "r1", realm_id := "rlm" }

/-- Witness environment: every record raises 401 and the refresh grant is
rejected. -/
def envRefreshFailW : BatchEnv :=
  { firstOutcome := fun _ => .authRaised
    retryOutcome := fun _ => .ok true
    refreshGrantOk := fun _ => false
    freshTokens := fun _ => ("a2", "r2")
    reinitOk := fun _ => true }

/-- Witness environment: the first attempt raises 401, refresh succeeds and
the retry succeeds. -/
def envAuthOnceW : BatchEnv :=
  { firstOutcome := fun _ => .authRaised
    retryOutcome := fun _ => .ok true
    refreshGrantOk := fun _ => true
    freshTokens := fun _ => ("a2", "r2")
    reinitOk := fun _ => true }

/-- Witness environment for the 3-record scenario: record 1 (0-based) raises
401 on its first attempt, everything else succeeds. -/
def envScenarioW : BatchEnv :=
  { firstOutcome := fun i => if i = 1 then .authRaised else .ok true
    retryOutcome := fun _ => .ok true
    refreshGrantOk := fun _ => true
    freshTokens := fun _ => ("a2", "r2")
    reinitOk := fun _ => true }

/-- Witness start-up environment where everything is in place. -/
def startOkW : StartEnv :=
  { env_ok := true, token_file := some credW, csv_ok := true, client_ok := true }

/-- Nat.digitChar is injective below 10. -/
theorem digitChar_inj_lt10 :
    ∀ a < 10, ∀ b < 10, Nat.digitChar a = Nat.digitChar b → a = b := by decide

/-- Mapping `Nat.digitChar` over lists of digits (< 10) is injective. -/
theorem map_digitChar_inj :
    ∀ (l1 l2 : List Nat), (∀ x ∈ l1, x < 10) → (∀ x ∈ l2, x < 10) →
      l1.map Nat.digitChar = l2.map Nat.digitChar → l1 = l2 := by
  intro l1
  induction l1 with
  | nil =>
    intro l2 _ _ h
    cases l2 with
    | nil => rfl
    | cons b bs => simp at h
  | cons a as ih =>
    intro l2 h1 h2 h
    cases l2 with
    | nil => simp at h
    | cons b bs =>
      simp only [List.map_cons, List.cons.injEq] at h
      have ha : a < 10 := h1 a (by simp)
      have hb : b < 10 := h2 b (by simp)
      have hab : a = b := digitChar_inj_lt10 a ha b hb h.1
      have htl : as = bs :=
        ih bs (fun x hx => h1 x (by simp [hx])) (fun x hx => h2 x (by simp [hx])) h.2
      rw [hab, htl]

/-- With sufficient fuel, `natStrAux` computes the reversed digit-character
list of `Nat.digits 10`. -/
theorem natStrAux_eq_digits :
    ∀ (f n : Nat), n ≤ f →
      natStrAux f n = ((Nat.digits 10 n).map Nat.digitChar).reverse := by
  intro f
  induction f with
  | zero =>
    intro n hn
    have : n = 0 := Nat.le_zero.mp hn
    subst this
    simp [natStrAux]
  | succ f ih =>
    intro n hn
    match n with
    | 0 => simp [natStrAux]
    | m + 1 =>
      have hlt : (m + 1) / 10 < m + 1 := Nat.div_lt_self (Nat.succ_pos m) (by norm_num)
      have hdiv : (m + 1) / 10 ≤ f := by omega
      rw [show natStrAux (f + 1) (m + 1)
            = natStrAux f ((m + 1) / 10) ++ [Nat.digitChar ((m + 1) % 10)] from rfl,
          ih _ hdiv,
          Nat.digits_def' (by norm_num : (1 : ℕ) < 10) (Nat.succ_pos m)]
      simp

/-- The decimal rendering `natRepr` is injective. -/
theorem natRepr_inj : ∀ m n : Nat, natRepr m = natRepr n → m = n := by
  have key : ∀ n : Nat, n ≠ 0 → String.mk (natStrAux n n) = "0" → False := by
    intro n hn h
    have hdata : natStrAux n n = ['0'] := congrArg String.data h
    rw [natStrAux_eq_digits n n le_rfl] at hdata
    have hmap : (Nat.digits 10 n).map Nat.digitChar = ['0'] := by
      have := congrArg List.reverse hdata
      simpa using this
    have hlen : (Nat.digits 10 n).length = 1 := by
      have := congrArg List.length hmap
      simpa using this
    obtain ⟨d, hd⟩ := List.length_eq_one.mp hlen
    rw [hd] at hmap
    simp only [List.map_cons, List.map_nil, List.cons.injEq, and_true] at hmap
    have hdlt : d < 10 :=
      Nat.digits_lt_base (by norm_num) (by rw [hd]; simp)
    have hd0 : d = 0 := by
      have h0 : Nat.digitChar 0 = '0' := rfl
      exact digitChar_inj_lt10 d hdlt 0 (by norm_num) (by rw [hmap, h0])
    have : n = 0 := by
      have hof := Nat.ofDigits_digits 10 n
      rw [hd, hd0] at hof
      simpa [Nat.ofDigits] using hof.symm
    exact hn this
  intro m n h
  unfold natRepr at h
  by_cases hm : m = 0 <;> by_cases hn : n = 0
  · rw [hm, hn]
  · rw [if_pos hm, if_neg hn] at h
    exact absurd h.symm (fun hc => key n hn hc)
  · rw [if_neg hm, if_pos hn] at h
    exact absurd h (fun hc => key m hm hc)
  · rw [if_neg hm, if_neg hn] at h
    have hdata : natStrAux m m = natStrAux n n := congrArg String.data h
    rw [natStrAux_eq_digits m m le_rfl, natStrAux_eq_digits n n le_rfl] at hdata
    have hmap : (Nat.digits 10 m).map Nat.digitChar = (Nat.digits 10 n).map Nat.digitChar := by
      have := congrArg List.reverse hdata
      simpa using this
    have hdig : Nat.digits 10 m = Nat.digits 10 n :=
      map_digitChar_inj _ _
        (fun x hx => Nat.digits_lt_base (by norm_num) hx)
        (fun x hx => Nat.digits_lt_base (by norm_num) hx) hmap
    exact Nat.digits_inj_iff.mp hdig

/-- The probed names are pairwise distinct across counters. -/
theorem pyCounterName_inj (base ext : String) {c1 c2 : Nat}
    (h : pyCounterName base ext c1 = pyCounterName base ext c2) : c1 = c2 := by
  unfold pyCounterName at h
  have hd := congrArg String.data h
  simp only [String.data_append] at hd
  have h1 := List.append_cancel_right hd
  have h2 := List.append_cancel_right h1
  have h3 := List.append_cancel_left h2
  exact natRepr_inj c1 c2 (String.ext h3)

/-- Pigeonhole: among the first `fs.length + 1` probed names, at least one
does not exist. -/
theorem exists_fresh_counter (fs : List String) (base ext : String) :
    ∃ j : Nat, j < fs.length + 1 ∧ pyCounterName base ext (1 + j) ∉ fs := by
  by_contra hc
  push_neg at hc
  have hf : ∀ a ∈ Finset.range (fs.length + 1),
      (fun j => pyCounterName base ext (1 + j)) a ∈ fs.toFinset := by
    intro a ha
    exact List.mem_toFinset.mpr (hc a (Finset.mem_range.mp ha))
  have hinj : Set.InjOn (fun j => pyCounterName base ext (1 + j))
      ↑(Finset.range (fs.length + 1)) := by
    intro a _ b _ hab
    have := pyCounterName_inj base ext hab
    omega
  have hcard := Finset.card_le_card_of_injOn _ hf hinj
  rw [Finset.card_range] at hcard
  have hle := fs.toFinset_card_le
  omega

/-- The probe loop, given enough fuel, returns the least free counter `≥ c`. -/
theorem findFree_spec (fs : List String) (base ext : String) :
    ∀ (fuel c : Nat), (∃ j, j < fuel ∧ pyCounterName base ext (c + j) ∉ fs) →
      c ≤ findFree fs base ext fuel c ∧
      pyCounterName base ext (findFree fs base ext fuel c) ∉ fs ∧
      ∀ k, c ≤ k → k < findFree fs base ext fuel c → pyCounterName base ext k ∈ fs := by
  intro fuel
  induction fuel with
  | zero =>
    intro c h
    obtain ⟨j, hj, _⟩ := h
    omega
  | succ fuel ih =>
    intro c h
    obtain ⟨j, hj, hfree⟩ := h
    by_cases hmem : pyCounterName base ext c ∈ fs
    · have hrec : ∃ j', j' < fuel ∧ pyCounterName base ext (c + 1 + j') ∉ fs := by
        cases j with
        | zero => exact absurd hmem (by simpa using hfree)
        | succ j' =>
          exact ⟨j', by omega, by rw [show c + 1 + j' = c + (j' + 1) by omega]; exact hfree⟩
      obtain ⟨h1, h2, h3⟩ := ih (c + 1) hrec
      rw [show findFree fs base ext (fuel + 1) c
            = if pyCounterName base ext c ∈ fs then findFree fs base ext fuel (c + 1) else c
          from rfl, if_pos hmem]
      refine ⟨by omega, h2, ?_⟩
      intro k hk1 hk2
      rcases Nat.eq_or_lt_of_le hk1 with heq | hlt
      · rw [← heq]; exact hmem
      · exact h3 k hlt hk2
    · rw [show findFree fs base ext (fuel + 1) c
            = if pyCounterName base ext c ∈ fs then findFree fs base ext fuel (c + 1) else c
          from rfl, if_neg hmem]
      exact ⟨le_rfl, hmem, fun k hk1 hk2 => absurd (lt_of_le_of_lt hk1 hk2) (lt_irrefl c)⟩

/-- Full specification of the allocator on an existing path: the result is the
probed name at the least free counter `≥ 1`. -/
theorem allocator_spec (fs : List String) (p : String) (hp : p ∈ fs) :
    1 ≤ findFree fs (splitext p).1 (splitext p).2 (fs.length + 1) 1 ∧
    get_unique_filename fs p
      = pyCounterName (splitext p).1 (splitext p).2
          (findFree fs (splitext p).1 (splitext p).2 (fs.length + 1) 1) ∧
    pyCounterName (splitext p).1 (splitext p).2
        (findFree fs (splitext p).1 (splitext p).2 (fs.length + 1) 1) ∉ fs ∧
    ∀ k, 1 ≤ k → k < findFree fs (splitext p).1 (splitext p).2 (fs.length + 1) 1 →
      pyCounterName (splitext p).1 (splitext p).2 k ∈ fs := by
  obtain ⟨j, hj, hfree⟩ := exists_fresh_counter fs (splitext p).1 (splitext p).2
  obtain ⟨h1, h2, h3⟩ :=
    findFree_spec fs (splitext p).1 (splitext p).2 (fs.length + 1) 1 ⟨j, hj, hfree⟩
  refine ⟨h1, ?_, h2, h3⟩
  unfold get_unique_filename
  rw [if_pos hp]

/-- C4: For every base path P over any filesystem: if P does not exist,
`get_unique_filename` returns P unchanged; otherwise it returns the first name
in the deterministic sequence base(1).ext, base(2).ext, … that does not exist;
the result never names an existing file and is distinct from every previously
allocated name that was materialized in the same run; the function is
well-defined for a P with no extension (probed as P(1), P(2), …); and in the
concrete scenario where "invoice.pdf" and "invoice(1).pdf" exist,
allocating "invoice.pdf" yields "invoice(2).pdf". -/
theorem get_unique_filename_correct :
    (∀ (fs : List String) (p : String), p ∉ fs → get_unique_filename fs p = p) ∧
    (∀ (fs : List String) (p : String), p ∈ fs →
      ∃ c : Nat, 1 ≤ c ∧
        get_unique_filename fs p = pyCounterName (splitext p).1 (splitext p).2 c ∧
        pyCounterName (splitext p).1 (splitext p).2 c ∉ fs ∧
        ∀ k, 1 ≤ k → k < c → pyCounterName (splitext p).1 (splitext p).2 k ∈ fs) ∧
    (∀ (fs : List String) (p : String), get_unique_filename fs p ∉ fs) ∧
    (∀ (fs prev : List String) (p : String), (∀ q ∈ prev, q ∈ fs) →
      get_unique_filename fs p ∉ prev) ∧
    get_unique_filename ["report", "report(1)"] "report" = "report(2)" ∧
    get_unique_filename ["invoice.pdf", "invoice(1).pdf"] "invoice.pdf"
      = "invoice(2).pdf" := by
  have hnot : ∀ (fs : List String) (p : String), p ∉ fs → get_unique_filename fs p = p := by
    intro fs p hp
    unfold get_unique_filename
    rw [if_neg hp]
  have hfresh : ∀ (fs : List String) (p : String), get_unique_filename fs p ∉ fs := by
    intro fs p
    by_cases hp : p ∈ fs
    · obtain ⟨_, h2, h3, _⟩ := allocator_spec fs p hp
      rw [h2]
      exact h3
    · rw [hnot fs p hp]
      exact hp
  refine ⟨hnot, ?_, hfresh, ?_, by decide, by decide⟩
  · intro fs p hp
    obtain ⟨h1, h2, h3, h4⟩ := allocator_spec fs p hp
    exact ⟨_, h1, h2, h3, h4⟩
  · intro fs prev p hprev hmem
    exact hfresh fs p (hprev _ hmem)

/-- Witness for C4 at a concrete input: "x" exists, so the allocator probes
and returns the least free counter name. -/
theorem get_unique_filename_correct_witness :
    ("x" ∈ (["x"] : List String)) ∧
    ∃ c : Nat, 1 ≤ c ∧
      get_unique_filename ["x"] "x" = pyCounterName (splitext "x").1 (splitext "x").2 c ∧
      pyCounterName (splitext "x").1 (splitext "x").2 c ∉ (["x"] : List String) ∧
      ∀ k, 1 ≤ k → k < c →
        pyCounterName (splitext "x").1 (splitext "x").2 k ∈ (["x"] : List String) :=
  ⟨by decide, get_unique_filename_correct.2.1 ["x"] "x" (by decide)⟩

/-- The resolver's existence check issues exactly one lookup call. -/
theorem invoice_number_exists_trace (env : CreateEnv) (doc : String) :
    (invoice_number_exists env doc).2 = [.invQuery doc] := by
  unfold invoice_number_exists
  cases env.invoiceFilter doc <;> rfl

/-- Stripping then re-applying leaves exactly the parsed CSV values on the
outgoing detail, with the other SDK defaults cleared. -/
theorem _apply_qty_rate_spec (detail : SalesItemLineDetail) (qty rate : Option Rat) :
    _apply_qty_rate detail qty rate =
      { ItemRef := detail.ItemRef, Qty := qty, UnitPrice := rate,
        TaxInclusiveAmt := none, ServiceDate := none } := by
  unfold _apply_qty_rate
  cases qty <;> cases rate <;> rfl

/-- With auto-fill disabled and the item found, the built line forwards the
row's parsed Quantity/Rate verbatim on its detail. -/
theorem buildLine_no_autofill (env : CreateEnv) (or : Bool) (row : LineRow)
    (hitem : row.Item ≠ "") (hf : env.itemFilter row.Item = .found) :
    buildLine env or false row =
      (.built
        { DetailType := none
          Description :=
            if or = false ∧ row.Description ≠ "" then some row.Description else none
          Amount := row.Amount
          LineDetail := some
            { ItemRef := some row.Item, Qty := row.Quantity, UnitPrice := row.Rate,
              TaxInclusiveAmt := none, ServiceDate := none } },
       [.itemQuery row.Item]) := by
  unfold buildLine
  rw [if_pos hitem]
  simp only [find_or_create_item, hf, Bool.false_eq_true, if_false]
  rw [_apply_qty_rate_spec]

/-- A row with a found item always builds a line and issues one item query. -/
theorem buildLine_found (env : CreateEnv) (or af : Bool) (row : LineRow)
    (hitem : row.Item ≠ "") (hf : env.itemFilter row.Item = .found) :
    ∃ l, buildLine env or af row = (.built l, [.itemQuery row.Item]) := by
  unfold buildLine
  rw [if_pos hitem]
  simp only [find_or_create_item, hf]
  exact ⟨_, rfl⟩

/-- When every row has a found item, the line loop builds one line per row. -/
theorem buildLines_all_found (env : CreateEnv) (or af : Bool) :
    ∀ rows : List LineRow,
      (∀ row ∈ rows, row.Item ≠ "") →
      (∀ row ∈ rows, env.itemFilter row.Item = .found) →
      ∃ ls calls, buildLines env or af rows = (.lines ls, calls) ∧
        ls.length = rows.length := by
  intro rows
  induction rows with
  | nil => exact fun _ _ => ⟨[], [], rfl, rfl⟩
  | cons row rest ih =>
    intro h1 h2
    obtain ⟨ls, calls, heq, hlen⟩ :=
      ih (fun r hr => h1 r (by simp [hr])) (fun r hr => h2 r (by simp [hr]))
    obtain ⟨l, hbl⟩ := buildLine_found env or af row (h1 row (by simp)) (h2 row (by simp))
    refine ⟨l :: ls, [.itemQuery row.Item] ++ calls, ?_, by simp [hlen]⟩
    simp only [buildLines, hbl, heq]

/-- C2: For every invoice key that already exists remotely, the creation
routine returns False after the existence check alone — no create (save) call
is issued and the remote state is untouched; moreover on every attempt
(including the retried attempt after a refresh, which re-runs the whole
routine) the first remote call of the routine is the existence check, so
the check always precedes any create call. -/
theorem idempotency_guard_short_circuits :
    (∀ (env : CreateEnv) (data : InvoiceData) (inv_no : String) (or af : Bool),
      env.invoiceFilter inv_no = .found →
        create_quickbooks_invoice env data inv_no or af = (.ok false, [.invQuery inv_no]) ∧
        ∀ inv : InvoiceObj,
          QboCall.saveCall inv ∉ (create_quickbooks_invoice env data inv_no or af).2) ∧
    (∀ (env : CreateEnv) (data : InvoiceData) (inv_no : String) (or af : Bool),
      (create_quickbooks_invoice env data inv_no or af).2.head? = some (.invQuery inv_no)) := by
  constructor
  · intro env data inv_no or af hf
    have heq : create_quickbooks_invoice env data inv_no or af
        = (.ok false, [.invQuery inv_no]) := by
      unfold create_quickbooks_invoice invoice_number_exists
      rw [hf]
    refine ⟨heq, ?_⟩
    rw [heq]
    simp
  · intro env data inv_no or af
    unfold create_quickbooks_invoice invoice_number_exists
    cases env.invoiceFilter inv_no <;> simp

/-- Witness for C2: with the key "1001" already present remotely, creation
returns False and the only remote call is the existence query. -/
theorem idempotency_guard_short_circuits_witness :
    ((fun _ : String => LookupRes.found) "1001" = LookupRes.found) ∧
    create_quickbooks_invoice
        { invoiceFilter := fun _ => .found, customerFilter := fun _ => .found,
          itemFilter := fun _ => .found, termFilter := fun _ => .found,
          saveResult := .okSave }
        { Customer := "Acme", InvoiceDate := "2025-01-01", DueDate := "2025-02-01",
          CustomerMemo := "", Terms := "", LineItems := [] }
        "1001" false false
      = (.ok false, [.invQuery "1001"]) :=
  ⟨rfl,
    (idempotency_guard_short_circuits.1
      { invoiceFilter := fun _ => .found, customerFilter := fun _ => .found,
        itemFilter := fun _ => .found, termFilter := fun _ => .found,
        saveResult := .okSave }
      { Customer := "Acme", InvoiceDate := "2025-01-01", DueDate := "2025-02-01",
        CustomerMemo := "", Terms := "", LineItems := [] }
      "1001" false false rfl).1⟩

/-- C9: A blank quantity or rate CSV cell parses to None
(`to_float_or_none`), `_apply_qty_rate` forwards exactly the parsed values
(absence preserved, the SDK zero-defaults cleared), and with auto-fill
disabled the line built for a row forwards the row's (possibly absent)
Quantity/Rate verbatim on the outgoing line detail. -/
theorem blank_qty_rate_forwarded_as_none :
    (∀ (float : String → Rat) (s : String), pyStrip s = "" →
      to_float_or_none float s = none) ∧
    (∀ (detail : SalesItemLineDetail) (qty rate : Option Rat),
      (_apply_qty_rate detail qty rate).Qty = qty ∧
      (_apply_qty_rate detail qty rate).UnitPrice = rate) ∧
    (∀ (env : CreateEnv) (or : Bool) (row : LineRow),
      row.Item ≠ "" → env.itemFilter row.Item = .found →
      ∀ l calls, buildLine env or false row = (.built l, calls) →
        ∃ d, l.LineDetail = some d ∧ d.Qty = row.Quantity ∧ d.UnitPrice = row.Rate) := by
  refine ⟨?_, ?_, ?_⟩
  · intro float s hs
    unfold to_float_or_none
    simp [hs]
  · intro detail qty rate
    rw [_apply_qty_rate_spec]
    exact ⟨rfl, rfl⟩
  · intro env or row hitem hf l calls h
    rw [buildLine_no_autofill env or row hitem hf] at h
    have hl := (Prod.mk.injEq _ _ _ _).mp h
    cases hl.1
    exact ⟨_, rfl, rfl, rfl⟩

/-- Witness for C9: a whitespace-only cell parses to None. -/
theorem blank_qty_rate_forwarded_as_none_witness :
    pyStrip " " = "" ∧ to_float_or_none (fun _ => 0) " " = none :=
  ⟨by decide, blank_qty_rate_forwarded_as_none.1 (fun _ => 0) " " (by decide)⟩

/-- C10: The idempotency guard is not fail-safe under lookup errors — when the
existence lookup raises any exception other than the auth signal,
`invoice_number_exists` returns False (as if the key were absent) and only an
AuthorizationException propagates; consequently the creation routine proceeds
to issue the create (save) call even though existence was undetermined. -/
theorem guard_not_failsafe_on_lookup_error :
    (∀ (env : CreateEnv) (doc : String), env.invoiceFilter doc = .otherErr →
      invoice_number_exists env doc = (.ok false, [.invQuery doc])) ∧
    (∀ (env : CreateEnv) (doc : String), env.invoiceFilter doc = .authErr →
      invoice_number_exists env doc = (.error .authExc, [.invQuery doc])) ∧
    (∀ (env : CreateEnv) (data : InvoiceData) (inv_no : String) (or af : Bool),
      env.invoiceFilter inv_no = .otherErr →
      env.customerFilter data.Customer = .found →
      (∀ nm, env.itemFilter nm = .found) →
      env.saveResult = .okSave →
      data.LineItems ≠ [] →
      (∀ row ∈ data.LineItems, row.Item ≠ "") →
      (or = false ∧ data.Terms ≠ "" → env.termFilter data.Terms = .found) →
      ∃ inv calls,
        create_quickbooks_invoice env data inv_no or af = (.ok true, calls) ∧
        QboCall.saveCall inv ∈ calls) := by
  refine ⟨?_, ?_, ?_⟩
  · intro env doc h
    unfold invoice_number_exists
    rw [h]
  · intro env doc h
    unfold invoice_number_exists
    rw [h]
  · intro env data inv_no or af hinv hcust hitems hsave hne hrows hterm
    obtain ⟨ls, calls3, hbl, hlen⟩ :=
      buildLines_all_found env or af data.LineItems hrows
        (fun r hr => hitems r.Item)
    have hls : ls ≠ [] := by
      intro hc
      apply hne
      have := hlen
      rw [hc] at this
      exact (List.length_eq_zero.mp this.symm)
    unfold create_quickbooks_invoice invoice_number_exists create_after_guard
    rw [hinv]
    simp only [find_or_create_customer, hcust]
    by_cases ht : or = false ∧ data.Terms ≠ ""
    · rw [if_pos ht]
      simp only [find_sales_term_by_name, hterm ht, hbl, hsave]
      rw [if_neg hls]
      refine
        ⟨{ CustomerRef := data.Customer, TxnDate := data.InvoiceDate, DocNumber := inv_no,
           DueDate := if or = false then some data.DueDate else none,
           CustomerMemo :=
             if or = false ∧ data.CustomerMemo ≠ "" then some data.CustomerMemo else none,
           SalesTermRef := some data.Terms, Line := ls }, _, rfl, ?_⟩
      simp
    · rw [if_neg ht]
      simp only [hbl, hsave]
      rw [if_neg hls]
      refine
        ⟨{ CustomerRef := data.Customer, TxnDate := data.InvoiceDate, DocNumber := inv_no,
           DueDate := if or = false then some data.DueDate else none,
           CustomerMemo :=
             if or = false ∧ data.CustomerMemo ≠ "" then some data.CustomerMemo else none,
           SalesTermRef := none, Line := ls }, _, rfl, ?_⟩
      simp

/-- Witness for C10: the existence lookup fails with a generic error, yet the
create is issued and succeeds. -/
theorem guard_not_failsafe_on_lookup_error_witness :
    ((fun _ : String => LookupRes.otherErr) "77" = LookupRes.otherErr) ∧
    ∃ inv calls,
      create_quickbooks_invoice
          { invoiceFilter := fun _ => .otherErr, customerFilter := fun _ => .found,
            itemFilter := fun _ => .found, termFilter := fun _ => .found,
            saveResult := .okSave }
          { Customer := "Acme", InvoiceDate := "2025-01-01", DueDate := "2025-02-01",
            CustomerMemo := "", Terms := "",
            LineItems := [{ Item := "Widget", Description := "", Quantity := none,
                            Rate := none, Amount := 10 }] }
          "77" false false
        = (.ok true, calls) ∧ QboCall.saveCall inv ∈ calls :=
  ⟨rfl,
    guard_not_failsafe_on_lookup_error.2.2
      { invoiceFilter := fun _ => .otherErr, customerFilter := fun _ => .found,
        itemFilter := fun _ => .found, termFilter := fun _ => .found,
        saveResult := .okSave }
      { Customer := "Acme", InvoiceDate := "2025-01-01", DueDate := "2025-02-01",
        CustomerMemo := "", Terms := "",
        LineItems := [{ Item := "Widget", Description := "", Quantity := none,
                        Rate := none, Amount := 10 }] }
      "77" false false rfl rfl (fun _ => rfl) rfl (by simp) (by simp)
      (fun h => absurd rfl h.2)⟩

/-- Once the abort flag is set (a `break` ran), the loop does nothing more. -/
theorem processLoop_aborted (env : BatchEnv) :
    ∀ (n i : Nat) (st : BState), st.aborted = true → processLoop env n i st = st := by
  intro n
  cases n with
  | zero => intro i st _; rfl
  | succ n => intro i st h; simp [processLoop, h]

/-- Processing one record only appends events. -/
theorem processRecord_events_grow (env : BatchEnv) (i : Nat) (st : BState) :
    ∃ t, (processRecord env i st).events = st.events ++ t := by
  unfold processRecord
  cases hfo : env.firstOutcome i <;>
    by_cases hg : env.refreshGrantOk st.refreshCount <;>
    by_cases hri : env.reinitOk st.refreshCount <;>
    cases hro : env.retryOutcome i <;>
    simp [hfo, hg, hri, hro, List.append_assoc]

/-- The loop only appends events. -/
theorem processLoop_events_grow (env : BatchEnv) :
    ∀ (n i : Nat) (st : BState), ∃ t, (processLoop env n i st).events = st.events ++ t := by
  intro n
  induction n with
  | zero => intro i st; exact ⟨[], by simp [processLoop]⟩
  | succ n ih =>
    intro i st
    by_cases ha : st.aborted
    · exact ⟨[], by simp [processLoop, ha]⟩
    · obtain ⟨t1, h1⟩ := processRecord_events_grow env i st
      obtain ⟨t2, h2⟩ := ih (i + 1) (processRecord env i st)
      refine ⟨t1 ++ t2, ?_⟩
      simp [processLoop, ha, h2, h1, List.append_assoc]

/-- Processing record `i` adds at most one refresh attempt and at most one
retry for record `i`. -/
theorem processRecord_countP_le (env : BatchEnv) (i : Nat) (st : BState) :
    (processRecord env i st).events.countP (isRefreshOf i)
        ≤ st.events.countP (isRefreshOf i) + 1 ∧
    (processRecord env i st).events.countP (isRetryOf i)
        ≤ st.events.countP (isRetryOf i) + 1 := by
  unfold processRecord
  cases hfo : env.firstOutcome i <;>
    by_cases hg : env.refreshGrantOk st.refreshCount <;>
    by_cases hri : env.reinitOk st.refreshCount <;>
    cases hro : env.retryOutcome i <;>
    simp [hfo, hg, hri, hro, isRefreshOf, isRetryOf,
      List.countP_append, List.countP_cons]

/-- Processing record `i` adds no refresh, retry or attempt events for any
other record `j`. -/
theorem processRecord_countP_ne (env : BatchEnv) (i j : Nat) (st : BState) (hne : i ≠ j) :
    (processRecord env i st).events.countP (isRefreshOf j)
        = st.events.countP (isRefreshOf j) ∧
    (processRecord env i st).events.countP (isRetryOf j)
        = st.events.countP (isRetryOf j) ∧
    (processRecord env i st).events.countP (isAttemptOf j)
        = st.events.countP (isAttemptOf j) := by
  unfold processRecord
  cases hfo : env.firstOutcome i <;>
    by_cases hg : env.refreshGrantOk st.refreshCount <;>
    by_cases hri : env.reinitOk st.refreshCount <;>
    cases hro : env.retryOutcome i <;>
    simp [hfo, hg, hri, hro, isRefreshOf, isRetryOf, isAttemptOf,
      List.countP_append, List.countP_cons, hne]

/-- Loop invariant: the whole remaining loop adds at most one refresh attempt
and at most one retry for any fixed record `i` (each record is processed at
most once). -/
theorem processLoop_counts (env : BatchEnv) (i : Nat) :
    ∀ (n i0 : Nat) (st : BState),
      (processLoop env n i0 st).events.countP (isRefreshOf i)
          ≤ st.events.countP (isRefreshOf i) + (if i0 ≤ i then 1 else 0) ∧
      (processLoop env n i0 st).events.countP (isRetryOf i)
          ≤ st.events.countP (isRetryOf i) + (if i0 ≤ i then 1 else 0) := by
  intro n
  induction n with
  | zero =>
    intro i0 st
    constructor <;> (simp [processLoop]; try exact Nat.le_add_right _ _)
  | succ n ih =>
    intro i0 st
    by_cases ha : st.aborted
    · rw [processLoop_aborted env (n + 1) i0 st ha]
      constructor <;> exact Nat.le_add_right _ _
    · rw [show processLoop env (n + 1) i0 st
            = processLoop env n (i0 + 1) (processRecord env i0 st) from by
          simp [processLoop, ha]]
      obtain ⟨ih1, ih2⟩ := ih (i0 + 1) (processRecord env i0 st)
      by_cases hi : i0 = i
      · subst hi
        obtain ⟨p1, p2⟩ := processRecord_countP_le env i0 st
        constructor <;> (split_ifs at ih1 ih2 ⊢ <;> omega)
      · obtain ⟨q1, q2, q3⟩ := processRecord_countP_ne env i0 i st hi
        constructor <;> (split_ifs at ih1 ih2 ⊢ <;> omega)

/-- A record whose first attempt raises a 401 and whose retry raises a 401
again always sets the abort flag, whatever the refresh and rebuild results
(refresh failure and rebuild failure abort as well). -/
theorem processRecord_double_auth_aborts (env : BatchEnv) (i : Nat) (st : BState)
    (h1 : env.firstOutcome i = .authRaised) (h2 : env.retryOutcome i = .authRaised) :
    (processRecord env i st).aborted = true := by
  unfold processRecord
  by_cases hg : env.refreshGrantOk st.refreshCount <;>
    by_cases hri : env.reinitOk st.refreshCount <;>
    simp [h1, h2, hg, hri]

/-- Processing record `i` neither adds nor removes attempt events of another
record `j`. -/
theorem processRecord_attempt_mem_ne (env : BatchEnv) (i j : Nat) (st : BState) (c : Cred)
    (hne : i ≠ j) :
    Event.attempt j c ∈ (processRecord env i st).events ↔
      Event.attempt j c ∈ st.events := by
  unfold processRecord
  cases hfo : env.firstOutcome i <;>
    by_cases hg : env.refreshGrantOk st.refreshCount <;>
    by_cases hri : env.reinitOk st.refreshCount <;>
    cases hro : env.retryOutcome i <;>
    simp [hfo, hg, hri, hro, hne, Ne.symm hne]

/-- After the double-401 record `i`, no later record is ever attempted. -/
theorem processLoop_no_attempt_after_double_auth (env : BatchEnv) (i : Nat)
    (h1 : env.firstOutcome i = .authRaised) (h2 : env.retryOutcome i = .authRaised) :
    ∀ (n i0 : Nat) (st : BState) (j : Nat), i < j → i0 ≤ i →
      (∀ c, Event.attempt j c ∉ st.events) →
      ∀ c, Event.attempt j c ∉ (processLoop env n i0 st).events := by
  intro n
  induction n with
  | zero =>
    intro i0 st j _ _ hst c
    simpa [processLoop] using hst c
  | succ n ih =>
    intro i0 st j hij hi0 hst c
    by_cases ha : st.aborted
    · rw [processLoop_aborted env (n + 1) i0 st ha]
      exact hst c
    · rw [show processLoop env (n + 1) i0 st
            = processLoop env n (i0 + 1) (processRecord env i0 st) from by
          simp [processLoop, ha]]
      rcases Nat.eq_or_lt_of_le hi0 with heq | hlt
      · subst heq
        have hab : (processRecord env i0 st).aborted = true :=
          processRecord_double_auth_aborts env i0 st h1 h2
        rw [processLoop_aborted env n (i0 + 1) _ hab]
        rw [processRecord_attempt_mem_ne env i0 j st c (by omega)]
        exact hst c
      · refine ih (i0 + 1) (processRecord env i0 st) j hij (by omega) ?_ c
        intro c'
        rw [processRecord_attempt_mem_ne env i0 j st c' (by omega)]
        exact hst c'

/-- C1: In every batch run, each record triggers at most one refresh attempt
and at most one retry; and when a record's retried operation signals the 401
AuthorizationException again after a refresh, the remaining batch is aborted:
no later record is ever attempted, so the coordinator never loops on
refresh. -/
theorem refresh_retry_bounded :
    (∀ (env : BatchEnv) (total : Nat) (c0 : Cred) (i : Nat),
      (process_invoices env total c0).events.countP (isRefreshOf i) ≤ 1 ∧
      (process_invoices env total c0).events.countP (isRetryOf i) ≤ 1) ∧
    (∀ (env : BatchEnv) (total : Nat) (c0 : Cred) (i : Nat),
      env.firstOutcome i = .authRaised → env.retryOutcome i = .authRaised →
      ∀ j, i < j → ∀ c, Event.attempt j c ∉ (process_invoices env total c0).events) := by
  constructor
  · intro env total c0 i
    obtain ⟨hr, ht⟩ := processLoop_counts env i total 0 (initialState c0)
    constructor
    · simpa [initialState] using hr
    · simpa [initialState] using ht
  · intro env total c0 i h1 h2 j hij c
    exact processLoop_no_attempt_after_double_auth env i h1 h2 total 0
      (initialState c0) j hij (Nat.zero_le i) (by simp [initialState]) c

/-- Witness for C1: a batch of 3 records where every operation raises the 401
signal — record 0 refreshes once, retries once, aborts; record 1 is never
attempted. -/
theorem refresh_retry_bounded_witness :
    ((fun _ : Nat => Outcome.authRaised) 0 = Outcome.authRaised) ∧
    Event.attempt 1 { access_token := "a1", refresh_token := "r1", realm_id := "rlm" }
      ∉ (process_invoices
          { firstOutcome := fun _ => .authRaised
            retryOutcome := fun _ => .authRaised
            refreshGrantOk := fun _ => true
            freshTokens := fun _ => ("a2", "r2")
            reinitOk := fun _ => true }
          3 { access_token := "a1", refresh_token := "r1", realm_id := "rlm" }).events :=
  ⟨rfl,
    refresh_retry_bounded.2
      { firstOutcome := fun _ => .authRaised
        retryOutcome := fun _ => .authRaised
        refreshGrantOk := fun _ => true
        freshTokens := fun _ => ("a2", "r2")
        reinitOk := fun _ => true }
      3 { access_token := "a1", refresh_token := "r1", realm_id := "rlm" } 0 rfl rfl
      1 (by omega) { access_token := "a1", refresh_token := "r1", realm_id := "rlm" }⟩

/-- C3: When a refresh succeeds, the new token pair is written to the token
file before the retried operation runs — the trace shows the save strictly
before the retry — and the retried operation's client is rebuilt from the
reloaded file contents, so the persisted credential, CONFIG, and the
credential of the session used for the retry (and for all later records) all
coincide. -/
theorem refresh_persisted_before_retry :
    ∀ (env : BatchEnv) (i : Nat) (st : BState),
      env.firstOutcome i = .authRaised →
      env.refreshGrantOk st.refreshCount = true →
      env.reinitOk st.refreshCount = true →
      (∃ tail,
        (processRecord env i st).events
          = st.events ++
            [Event.attempt i st.client.cred,
             Event.refreshAttempt i true,
             Event.tokenSave (freshCredAt env st.refreshCount st.config.realm_id),
             Event.tokenReload (freshCredAt env st.refreshCount st.config.realm_id),
             Event.clientRebuild (freshCredAt env st.refreshCount st.config.realm_id),
             Event.retry i (freshCredAt env st.refreshCount st.config.realm_id)] ++ tail) ∧
      (processRecord env i st).tokenFile
          = freshCredAt env st.refreshCount st.config.realm_id ∧
      (processRecord env i st).config
          = freshCredAt env st.refreshCount st.config.realm_id ∧
      (processRecord env i st).client.cred
          = freshCredAt env st.refreshCount st.config.realm_id := by
  intro env i st h1 hg hri
  cases hro : env.retryOutcome i with
  | ok b =>
    refine ⟨⟨[], ?_⟩, ?_, ?_, ?_⟩ <;> simp [processRecord, h1, hg, hri, hro]
  | otherRaised =>
    refine ⟨⟨[], ?_⟩, ?_, ?_, ?_⟩ <;> simp [processRecord, h1, hg, hri, hro]
  | authRaised =>
    refine ⟨⟨[Event.abortBatch], ?_⟩, ?_, ?_, ?_⟩ <;> simp [processRecord, h1, hg, hri, hro]

/-- Witness for C3: after the refresh at the first record, the token file,
CONFIG, and the retried session all hold the fresh credential. -/
theorem refresh_persisted_before_retry_witness :
    envAuthOnceW.firstOutcome 0 = Outcome.authRaised ∧
    ((processRecord envAuthOnceW 0 (initialState credW)).tokenFile
        = freshCredAt envAuthOnceW 0 "rlm" ∧
      (processRecord envAuthOnceW 0 (initialState credW)).config
        = freshCredAt envAuthOnceW 0 "rlm" ∧
      (processRecord envAuthOnceW 0 (initialState credW)).client.cred
        = freshCredAt envAuthOnceW 0 "rlm") :=
  ⟨rfl, (refresh_persisted_before_retry envAuthOnceW 0 (initialState credW) rfl rfl rfl).2⟩

/-- Every record's own first attempt is logged with the client in use. -/
theorem processRecord_attempt_self (env : BatchEnv) (i : Nat) (st : BState) :
    Event.attempt i st.client.cred ∈ (processRecord env i st).events := by
  unfold processRecord
  cases hfo : env.firstOutcome i <;>
    by_cases hg : env.refreshGrantOk st.refreshCount <;>
    by_cases hri : env.reinitOk st.refreshCount <;>
    cases hro : env.retryOutcome i <;>
    simp [hfo, hg, hri, hro]

/-- C7: A record failing with anything other than the auth signals is
resolved as failed or skipped and the batch continues: a generic exception or
a normal False return leaves the state unchanged except for the logged
attempt; a generic exception on the retry does not abort either; an abort can
only arise from a record whose first attempt raised the 401 signal; and after
a non-auth failure the coordinator proceeds to attempt the next record. -/
theorem non_auth_failures_do_not_abort :
    (∀ (env : BatchEnv) (i : Nat) (st : BState),
      env.firstOutcome i = .otherRaised →
        processRecord env i st
          = { st with events := st.events ++ [Event.attempt i st.client.cred] }) ∧
    (∀ (env : BatchEnv) (i : Nat) (st : BState) (b : Bool),
      env.firstOutcome i = .ok b →
        processRecord env i st
          = { st with success := st.success + if b then 1 else 0, events := st.events ++ [Event.attempt i st.client.cred] }) ∧
    (∀ (env : BatchEnv) (i : Nat) (st : BState),
      env.firstOutcome i = .authRaised →
      env.refreshGrantOk st.refreshCount = true →
      env.reinitOk st.refreshCount = true →
      env.retryOutcome i = .otherRaised →
      (processRecord env i st).aborted = st.aborted) ∧
    (∀ (env : BatchEnv) (i : Nat) (st : BState),
      st.aborted = false → (processRecord env i st).aborted = true →
      env.firstOutcome i = .authRaised) ∧
    (∀ (env : BatchEnv) (n i : Nat) (st : BState),
      st.aborted = false →
      (env.firstOutcome i = .otherRaised ∨ ∃ b, env.firstOutcome i = .ok b) →
      Event.attempt (i + 1) ((processRecord env i st).client.cred)
        ∈ (processLoop env (n + 2) i st).events) := by
  refine ⟨?_, ?_, ?_, ?_, ?_⟩
  · intro env i st h
    unfold processRecord
    rw [h]
  · intro env i st b h
    unfold processRecord
    rw [h]
  · intro env i st h1 hg hri hro
    simp [processRecord, h1, hg, hri, hro]
  · intro env i st h0 habort
    cases hfo : env.firstOutcome i with
    | authRaised => rfl
    | ok b =>
      exfalso
      simp [processRecord, hfo, h0] at habort
    | otherRaised =>
      exfalso
      simp [processRecord, hfo, h0] at habort
  · intro env n i st ha hcase
    have hna : (processRecord env i st).aborted = false := by
      rcases hcase with h | ⟨b, h⟩
      · simp [processRecord, h, ha]
      · simp [processRecord, h, ha]
    have hstep : processLoop env (n + 2) i st
        = processLoop env (n + 1) (i + 1) (processRecord env i st) := by
      simp [processLoop, ha]
    have hstep2 : processLoop env (n + 1) (i + 1) (processRecord env i st)
        = processLoop env n (i + 1 + 1)
            (processRecord env (i + 1) (processRecord env i st)) := by
      simp [processLoop, hna]
    obtain ⟨t, ht⟩ := processLoop_events_grow env n (i + 1 + 1)
        (processRecord env (i + 1) (processRecord env i st))
    rw [hstep, hstep2, ht]
    exact List.mem_append_left _
      (processRecord_attempt_self env (i + 1) (processRecord env i st))

/-- Witness for C7: a record that fails with a generic exception only logs
its attempt — no abort, no refresh, no success increment. -/
theorem non_auth_failures_do_not_abort_witness :
    ((fun _ : Nat => Outcome.otherRaised) 0 = Outcome.otherRaised) ∧
    processRecord
        { firstOutcome := fun _ => .otherRaised
          retryOutcome := fun _ => .ok true
          refreshGrantOk := fun _ => true
          freshTokens := fun _ => ("a2", "r2")
          reinitOk := fun _ => true }
        0 (initialState credW)
      = { initialState credW with
          events := (initialState credW).events
            ++ [Event.attempt 0 (initialState credW).client.cred] } :=
  ⟨rfl,
    non_auth_failures_do_not_abort.1
      { firstOutcome := fun _ => .otherRaised
        retryOutcome := fun _ => .ok true
        refreshGrantOk := fun _ => true
        freshTokens := fun _ => ("a2", "r2")
        reinitOk := fun _ => true }
      0 (initialState credW) rfl⟩

/-- C8: On the first 401 of a record not yet retried, the refresher runs once
and the coordinator's session reference is replaced: the rebuilt client holds
the fresh credential, the retry is issued with it, and (since the loop
variable is rebound) all subsequent records use the same refreshed session.
In the 3-record scenario where record 1 (0-based) raises 401 on creation, the
refresh succeeds and the retry and record 2 succeed, the outcome is 3/3
succeeded with exactly one refresh invocation, and both the retry and record
2's attempt carry the refreshed credential. -/
theorem refresh_once_shared_session :
    (∀ (env : BatchEnv) (i : Nat) (st : BState),
      env.firstOutcome i = .authRaised →
      env.refreshGrantOk st.refreshCount = true →
      env.reinitOk st.refreshCount = true →
      (processRecord env i st).client.cred
          = freshCredAt env st.refreshCount st.config.realm_id ∧
      Event.retry i (freshCredAt env st.refreshCount st.config.realm_id)
          ∈ (processRecord env i st).events ∧
      (processRecord env i st).refreshCount = st.refreshCount + 1) ∧
    (∀ (env : BatchEnv) (c0 : Cred),
      env.firstOutcome 0 = .ok true → env.firstOutcome 1 = .authRaised →
      env.firstOutcome 2 = .ok true → env.retryOutcome 1 = .ok true →
      env.refreshGrantOk 0 = true → env.reinitOk 0 = true →
      (process_invoices env 3 c0).success = 3 ∧
      (process_invoices env 3 c0).refreshCount = 1 ∧
      (process_invoices env 3 c0).events.countP isAnyRefresh = 1 ∧
      Event.retry 1 (freshCredAt env 0 c0.realm_id)
          ∈ (process_invoices env 3 c0).events ∧
      Event.attempt 2 (freshCredAt env 0 c0.realm_id)
          ∈ (process_invoices env 3 c0).events) := by
  constructor
  · intro env i st h1 hg hri
    cases hro : env.retryOutcome i with
    | ok b => refine ⟨?_, ?_, ?_⟩ <;> simp [processRecord, h1, hg, hri, hro]
    | otherRaised => refine ⟨?_, ?_, ?_⟩ <;> simp [processRecord, h1, hg, hri, hro]
    | authRaised => refine ⟨?_, ?_, ?_⟩ <;> simp [processRecord, h1, hg, hri, hro]
  · intro env c0 h0 h1 h2 hr hg hri
    refine ⟨?_, ?_, ?_, ?_, ?_⟩ <;>
      simp [process_invoices, processLoop, processRecord, initialState, freshCredAt,
        h0, h1, h2, hr, hg, hri, isAnyRefresh, List.countP_append, List.countP_cons]

/-- Witness for C8: the concrete 3-record scenario environment gives 3/3
succeeded with exactly one refresh. -/
theorem refresh_once_shared_session_witness :
    envScenarioW.firstOutcome 0 = Outcome.ok true ∧
    envScenarioW.firstOutcome 1 = Outcome.authRaised ∧
    (process_invoices envScenarioW 3 credW).success = 3 ∧
    (process_invoices envScenarioW 3 credW).refreshCount = 1 ∧
    (process_invoices envScenarioW 3 credW).events.countP isAnyRefresh = 1 ∧
    Event.retry 1 (freshCredAt envScenarioW 0 credW.realm_id)
        ∈ (process_invoices envScenarioW 3 credW).events ∧
    Event.attempt 2 (freshCredAt envScenarioW 0 credW.realm_id)
        ∈ (process_invoices envScenarioW 3 credW).events := by
  have h := refresh_once_shared_session.2 envScenarioW credW rfl rfl rfl rfl rfl rfl
  exact ⟨rfl, rfl, h.1, h.2.1, h.2.2.1, h.2.2.2.1, h.2.2.2.2⟩

/-- C5 evidence: the token-file save truncates in place, so the observable
sequence of file contents during the save passes through an empty
intermediate state that is neither the old nor the new credential record —
the write is not atomic and a concurrent reader can observe it. -/
theorem token_save_not_atomic :
    "" ∈ tokenFileWriteStates "old-tokens" "new-tokens" ∧
    "" ≠ "old-tokens" ∧ "" ≠ "new-tokens" :=
  ⟨by simp [tokenFileWriteStates], by decide, by decide⟩

/-- C6 counterexample: a run that starts successfully but aborts mid-batch on
a definitive auth failure (the refresh grant is rejected at the first record)
terminates with exit status 0, not a non-zero status; and a run that could
not start (missing environment credentials) exits 1 but produces no summary
count. -/
theorem abort_exits_zero_counterexample :
    (main_import startOkW envRefreshFailW 1).exitCode = 0 ∧
    (main_import startOkW envRefreshFailW 1).summaryShown = true ∧
    (main_import startOkW envRefreshFailW 1).batch
        = some (process_invoices envRefreshFailW 1 credW) ∧
    (process_invoices envRefreshFailW 1 credW).aborted = true ∧
    (process_invoices envRefreshFailW 1 credW).refreshCount = 1 ∧
    (main_import { env_ok := false, token_file := some credW, csv_ok := true,
                   client_ok := true } envRefreshFailW 1).exitCode = 1 ∧
    (main_import { env_ok := false, token_file := some credW, csv_ok := true,
                   client_ok := true } envRefreshFailW 1).summaryShown = false :=
  ⟨rfl, rfl, rfl, rfl, rfl, rfl, rfl⟩

/-- C6 amended: the process exits non-zero exactly when the run could not
start (missing environment credentials, missing token file, missing input
file, or failed client initialization), and in those cases no summary is
produced; a run that starts always prints the attempted/succeeded summary and
terminates with exit status 0, even when the batch aborted mid-run on a
definitive auth failure. -/
theorem exit_status_spec :
    ∀ (se : StartEnv) (env : BatchEnv) (total : Nat),
      ((se.env_ok = false ∨ se.token_file = none ∨ se.csv_ok = false ∨
          se.client_ok = false) →
        (main_import se env total).exitCode = 1 ∧
        (main_import se env total).summaryShown = false ∧
        (main_import se env total).batch = none) ∧
      (∀ c0 : Cred, se.env_ok = true → se.token_file = some c0 → se.csv_ok = true →
        se.client_ok = true →
        (main_import se env total).exitCode = 0 ∧
        (main_import se env total).summaryShown = true ∧
        (main_import se env total).batch = some (process_invoices env total c0)) := by
  intro se env total
  rcases se with ⟨eo, tf, co, clo⟩
  constructor
  · intro h
    cases eo <;> cases co <;> cases clo <;> cases tf <;> simp_all [main_import]
  · intro c0 he htf hc hcl
    simp only at he htf hc hcl
    subst he
    subst htf
    subst hc
    subst hcl
    simp [main_import]

/-- Witness for C6 (amended): a fully healthy start with a batch that aborts
on refresh failure still exits 0 with the summary printed. -/
theorem exit_status_spec_witness :
    startOkW.env_ok = true ∧
    ((main_import startOkW envRefreshFailW 1).exitCode = 0 ∧
      (main_import startOkW envRefreshFailW 1).summaryShown = true ∧
      (main_import startOkW envRefreshFailW 1).batch
        = some (process_invoices envRefreshFailW 1 credW)) :=
  ⟨rfl, (exit_status_spec startOkW envRefreshFailW 1).2 credW rfl rfl rfl rfl⟩
